import Mathlib

/-!
# Verification of capsule's Ethernet codec (`src/core/src/packets/ethernet.rs`)

A shallow embedding of the Ethernet/VLAN header codec from the capsule
packet-processing toolkit, together with proofs of the specification claims.

The buffer (`Mbuf`) and the generic `Packet` trait plumbing live outside the
given sources; their operations (`read_data`, `write_data`, `extend`, `shrink`,
`payload_offset`, `data_len`) are modelled from the spec (sections 4.1 and 4.3)
and are marked as such. Everything else is translated from `ethernet.rs`.

Bytes are modelled as `Nat` values; a buffer's occupied region is a
`List Nat`. Memory beyond the occupied region is unspecified in the source
(the code guards every access with a bounds check before dereferencing), so
out-of-range reads are modelled as returning 0 and out-of-range writes as
no-ops; no theorem below depends on that choice at a code-reachable state.
-/

set_option maxRecDepth 8000

namespace Capsule

/-- Tag protocol identifier for IEEE 802.1Q, `const VLAN_802_1Q: u16 = 0x8100`. -/
def VLAN_802_1Q : Nat := 0x8100

/-- Tag protocol identifier for IEEE 802.1ad, `const VLAN_802_1AD: u16 = 0x88a8`. -/
def VLAN_802_1AD : Nat := 0x88a8

/-- Errors of the buffer collaborator, from spec section 7:
`OutOfBuffer(required, available)`, `BufferCapacityExceeded`,
`BufferRangeInvalid`. -/
inductive BufferError where
  | OutOfBuffer (required : Nat) (available : Nat)
  | BufferCapacityExceeded
  | BufferRangeInvalid
deriving Repr, DecidableEq

/-- Modelled from the spec: the byte buffer collaborator (section 4.1). It owns
a contiguous region; `data` is the occupied bytes, `capacity` the fixed backing
capacity that bounds `extend`. -/
structure Mbuf where
  data : List Nat
  capacity : Nat
deriving Repr, DecidableEq

/-- Modelled from the spec: `data_len() -> usize`, the buffer's occupied length. -/
def Mbuf.data_len (m : Mbuf) : Nat := m.data.length

/-- A byte of the occupied region; reads beyond it are unspecified in the
source and modelled as 0. -/
def Mbuf.getByte (m : Mbuf) (i : Nat) : Nat := m.data.getD i 0

/-- Big-endian 16-bit read at byte offset `i` (what `u16::from_be` of a u16
field loaded from the wire yields). A read that is not wholly inside the
occupied region is unspecified in the source and modelled as 0. -/
def Mbuf.readU16BE (m : Mbuf) (i : Nat) : Nat :=
  if i + 2 ≤ m.data.length then m.getByte i * 256 + m.getByte (i + 1) else 0

/-- Overwrite bytes of `l` starting at index `i` with the bytes of `bs`
(writes past the end of `l` are unspecified in the source; modelled as no-ops). -/
def writeBytes (l : List Nat) (i : Nat) : List Nat → List Nat
  | [] => l
  | b :: bs => writeBytes (l.set i b) (i + 1) bs

/-- Read `n` bytes starting at index `i`. -/
def readBytes (l : List Nat) (i n : Nat) : List Nat :=
  (List.range n).map fun k => l.getD (i + k) 0

/-- Big-endian 16-bit write at byte offset `i` (what storing `u16::to_be v`
puts in memory). -/
def Mbuf.writeU16BE (m : Mbuf) (i v : Nat) : Mbuf :=
  ⟨(m.data.set i (v / 256 % 256)).set (i + 1) (v % 256), m.capacity⟩

/-- Modelled from the spec: `extend(offset, n_bytes)` inserts `n` zero bytes at
`offset`, shifting trailing data, and fails on capacity exhaustion
(sections 4.1 and 7). -/
def Mbuf.extend (m : Mbuf) (offset n : Nat) : Except BufferError Mbuf :=
  if m.data.length + n ≤ m.capacity then
    .ok ⟨m.data.take offset ++ List.replicate n 0 ++ m.data.drop offset, m.capacity⟩
  else
    .error .BufferCapacityExceeded

/-- Modelled from the spec: `shrink(offset, n_bytes)` removes `n` bytes at
`offset`, shifting trailing data backward; a range outside the occupied bytes
is `BufferRangeInvalid` (sections 4.1 and 7). -/
def Mbuf.shrink (m : Mbuf) (offset n : Nat) : Except BufferError Mbuf :=
  if offset + n ≤ m.data.length then
    .ok ⟨m.data.take offset ++ m.data.drop (offset + n), m.capacity⟩
  else
    .error .BufferRangeInvalid

/-- Modelled from the spec: `write_typed(offset, &T)` is a bounds-checked write
of the value's bytes at `offset` (section 4.1). -/
def Mbuf.write_data (m : Mbuf) (offset : Nat) (bytes : List Nat) : Except BufferError Mbuf :=
  if offset + bytes.length ≤ m.data.length then
    .ok ⟨writeBytes m.data offset bytes, m.capacity⟩
  else
    .error (.OutOfBuffer (offset + bytes.length) m.data.length)

/-- Modelled from the spec: a raw buffer's "next free" offset is its start —
parsing the outermost (Ethernet) layer from a plain `Mbuf` anchors it at
offset 0 (sections 4.3 and 6). -/
def Mbuf.payload_offset (_ : Mbuf) : Nat := 0

/-- `EthernetHeader::size_of()` — the fixed nominal portion, 14 bytes
(`impl SizeOf for EthernetHeader`). -/
def EthernetHeader.size_of : Nat := 14

/-- `VlanTag::size_of()` — the `#[repr(C, packed)]` struct of two u16 fields
(`tpid`, `tci`) occupies 4 bytes. -/
def VlanTag.size_of : Nat := 4

/-- Bytes of `EthernetHeader::default()`: zeroed `dst`, `src` and chunk
`ether_type` — 14 zero bytes (the nominal portion written by `do_push`). -/
def EthernetHeader.default_bytes : List Nat := List.replicate 14 0

/-- The `VlanTag` struct as the program sees it: two `u16` fields `tpid` and
`tci` holding the numeric values of the in-memory words. The struct is
`#[repr(C, packed)]` and overlaid byte-for-byte on wire data. -/
structure VlanTag where
  tpid : Nat
  tci : Nat
deriving Repr, DecidableEq

/-- The `VlanTag` a host reads when the four wire bytes (big-endian `tpid`
then big-endian `tci`) are overlaid on the struct: a little-endian host's
`u16` field values are byte-swapped relative to the wire, a big-endian
host's are not. -/
def VlanTag.ofWire (littleEndian : Bool) (tpidHi tpidLo tciHi tciLo : Nat) : VlanTag :=
  if littleEndian then ⟨tpidLo * 256 + tpidHi, tciLo * 256 + tciHi⟩
  else ⟨tpidHi * 256 + tpidLo, tciHi * 256 + tciLo⟩

/-- `VlanTag::priority`: `(self.tci >> 13) as u8` — no byte-order conversion
in the source. -/
def VlanTag.priority (t : VlanTag) : Nat := t.tci >>> 13

/-- `VlanTag::drop_eligible`: `self.tci & 0x1000 > 0` — no byte-order
conversion in the source. -/
def VlanTag.drop_eligible (t : VlanTag) : Bool := t.tci &&& 0x1000 > 0

/-- `VlanTag::identifier`: `self.tci & 0x0fff` — no byte-order conversion in
the source. -/
def VlanTag.identifier (t : VlanTag) : Nat := t.tci &&& 0x0fff

/-- The claim's reading of `priority()`: bits 15–13 of the TCI as transmitted
(network byte order), i.e. of the big-endian 16-bit value `tciWire`. -/
def VlanTag.priority_claimed (tciWire : Nat) : Nat := tciWire >>> 13

/-- The claim's reading of `drop_eligible()`: bit 12 of the network-order TCI. -/
def VlanTag.drop_eligible_claimed (tciWire : Nat) : Bool := tciWire &&& 0x1000 > 0

/-- The claim's reading of `identifier()`: bits 11–0 of the network-order TCI. -/
def VlanTag.identifier_claimed (tciWire : Nat) : Nat := tciWire &&& 0x0fff

/-- The `Ethernet` layer: a view anchored at `offset` into its envelope
buffer. The source's `NonNull<EthernetHeader>` pointer is the buffer region
starting at `offset`; the embedding reads through the buffer directly. -/
structure Ethernet where
  mbuf : Mbuf
  offset : Nat
deriving Repr, DecidableEq

namespace Ethernet

/-- `vlan_marker`: `u16::from_be(self.header().chunk.ether_type)` — the 2-byte
big-endian value at the chunk's base, 12 bytes into the header. -/
def vlan_marker (e : Ethernet) : Nat := e.mbuf.readU16BE (e.offset + 12)

/-- `is_vlan_802_1q`: `self.vlan_marker() == VLAN_802_1Q`. -/
def is_vlan_802_1q (e : Ethernet) : Bool := e.vlan_marker == VLAN_802_1Q

/-- `is_vlan_802_1ad`: `self.vlan_marker() == VLAN_802_1AD`. -/
def is_vlan_802_1ad (e : Ethernet) : Bool := e.vlan_marker == VLAN_802_1AD

/-- `header_len`: nominal size plus one `VlanTag` when 802.1q tagged, plus two
when 802.1ad tagged. -/
def header_len (e : Ethernet) : Nat :=
  if e.is_vlan_802_1q then EthernetHeader.size_of + VlanTag.size_of
  else if e.is_vlan_802_1ad then EthernetHeader.size_of + VlanTag.size_of * 2
  else EthernetHeader.size_of

/-- `ether_type`: match on the marker; `Chunk802_1q` lays out a 4-byte
`VlanTag` then `ether_type` (4 bytes past the chunk base), `Chunk802_1ad` two
tags then `ether_type` (8 bytes past), untagged reads the chunk base itself.
The chunk base is 12 bytes into the header. -/
def ether_type (e : Ethernet) : Nat :=
  if e.vlan_marker = VLAN_802_1Q then e.mbuf.readU16BE (e.offset + 12 + 4)
  else if e.vlan_marker = VLAN_802_1AD then e.mbuf.readU16BE (e.offset + 12 + 8)
  else e.mbuf.readU16BE (e.offset + 12)

/-- `set_ether_type`: stores `u16::to_be(v)` into the overlay sub-field
selected by the current marker. -/
def set_ether_type (e : Ethernet) (v : Nat) : Ethernet :=
  if e.vlan_marker = VLAN_802_1Q then ⟨e.mbuf.writeU16BE (e.offset + 12 + 4) v, e.offset⟩
  else if e.vlan_marker = VLAN_802_1AD then ⟨e.mbuf.writeU16BE (e.offset + 12 + 8) v, e.offset⟩
  else ⟨e.mbuf.writeU16BE (e.offset + 12) v, e.offset⟩

/-- `dst`: the 6 destination-address bytes at the start of the header
(`MacAddr` is read byte-for-byte, no byte-order conversion). -/
def dst (e : Ethernet) : List Nat := readBytes e.mbuf.data e.offset 6

/-- `src`: the 6 source-address bytes, 6 bytes into the header. -/
def src (e : Ethernet) : List Nat := readBytes e.mbuf.data (e.offset + 6) 6

/-- `set_dst`: overwrite the destination-address bytes. -/
def set_dst (e : Ethernet) (v : List Nat) : Ethernet :=
  ⟨⟨writeBytes e.mbuf.data e.offset v, e.mbuf.capacity⟩, e.offset⟩

/-- `set_src`: overwrite the source-address bytes. -/
def set_src (e : Ethernet) (v : List Nat) : Ethernet :=
  ⟨⟨writeBytes e.mbuf.data (e.offset + 6) v, e.mbuf.capacity⟩, e.offset⟩

/-- `swap_addresses`: read both addresses, then `set_src(dst)` and
`set_dst(src)`, in the source's order. -/
def swap_addresses (e : Ethernet) : Ethernet :=
  let s := e.src
  let d := e.dst
  (e.set_src d).set_dst s

/-- `do_parse`: read the nominal header at the envelope's payload offset
(`read_data`, modelled from spec section 4.1: fails if
`offset + size_of::<T>() > data_len`, reporting the required and available
lengths), then `ensure!(data_len() >= header_len(), OutOfBuffer(header_len,
data_len))` now that the tag marker is readable. -/
def do_parse (envelope : Mbuf) : Except BufferError Ethernet :=
  let offset := envelope.payload_offset
  if envelope.data_len < offset + EthernetHeader.size_of then
    .error (.OutOfBuffer (offset + EthernetHeader.size_of) envelope.data_len)
  else
    let packet : Ethernet := ⟨envelope, offset⟩
    if packet.mbuf.data_len < packet.header_len then
      .error (.OutOfBuffer packet.header_len packet.mbuf.data_len)
    else
      .ok packet

/-- `do_push`: `extend(offset, EthernetHeader::size_of())` then
`write_data(offset, &EthernetHeader::default())`, returning the layer anchored
at the envelope's payload offset. -/
def do_push (envelope : Mbuf) : Except BufferError Ethernet := do
  let offset := envelope.payload_offset
  let m ← envelope.extend offset EthernetHeader.size_of
  let m ← m.write_data offset EthernetHeader.default_bytes
  return ⟨m, offset⟩

/-- `remove`: `shrink(offset, header_len())` and return the envelope buffer. -/
def remove (e : Ethernet) : Except BufferError Mbuf :=
  e.mbuf.shrink e.offset e.header_len

/-- The `ether_type` read as claim C3 words it (EtherType 6 bytes past the
chunk base when the marker is the single-tag marker, 10 bytes past when it is
the double-tag marker, at the chunk base otherwise), written down for
comparison with the source's `Ethernet.ether_type`. -/
def ether_type_claimed (e : Ethernet) : Nat :=
  if e.vlan_marker = VLAN_802_1Q then e.mbuf.readU16BE (e.offset + 12 + 6)
  else if e.vlan_marker = VLAN_802_1AD then e.mbuf.readU16BE (e.offset + 12 + 10)
  else e.mbuf.readU16BE (e.offset + 12)

end Ethernet

/-- The 64-byte 802.1Q test fixture `VLAN_802_1Q_PACKET` from the source:
dst `00:00:00:00:00:01`, src `00:00:00:00:00:02`, TPID `0x8100`,
TCI `0x007b`, EtherType `0x0806` (ARP), then an ARP payload. -/
def VLAN_802_1Q_PACKET : List Nat :=
  [0x00, 0x00, 0x00, 0x00, 0x00, 0x01,
   0x00, 0x00, 0x00, 0x00, 0x00, 0x02,
   0x81, 0x00,
   0x00, 0x7b,
   0x08, 0x06,
   0x00, 0x01, 0x08, 0x00, 0x06, 0x04, 0x00, 0x02, 0x00, 0x19,
   0x06, 0xea, 0xb8, 0xc1, 0xc0, 0xa8, 0x7b, 0x01, 0xff, 0xff,
   0xff, 0xff, 0xff, 0xff, 0xc0, 0xa8, 0x7b, 0x01, 0x00, 0x00,
   0x00, 0x00, 0x00, 0x00, 0x00, 0x00, 0x00, 0x00, 0x00, 0x00,
   0x00, 0x00, 0x00, 0x00, 0x00, 0x00]

/-- The 68-byte 802.1ad test fixture `VLAN_802_1AD_PACKET` from the source:
S-TAG TPID `0x88a8` / TCI `0x001e`, C-TAG TPID `0x8100` / TCI `0x2065`,
EtherType `0x0806` (ARP). -/
def VLAN_802_1AD_PACKET : List Nat :=
  [0x00, 0x00, 0x00, 0x00, 0x00, 0x01,
   0x00, 0x00, 0x00, 0x00, 0x00, 0x02,
   0x88, 0xa8,
   0x00, 0x1e,
   0x81, 0x00,
   0x20, 0x65,
   0x08, 0x06,
   0x00, 0x01, 0x08, 0x00, 0x06, 0x04, 0x00, 0x02, 0x00, 0x19,
   0x06, 0xea, 0xb8, 0xc1, 0xc0, 0xa8, 0x7b, 0x01, 0xff, 0xff,
   0xff, 0xff, 0xff, 0xff, 0xc0, 0xa8, 0x7b, 0x01, 0x00, 0x00,
   0x00, 0x00, 0x00, 0x00, 0x00, 0x00, 0x00, 0x00, 0x00, 0x00,
   0x00, 0x00, 0x00, 0x00, 0x00, 0x00]

/-- A minimal untagged frame: dst `00:00:00:00:00:01`, src
`00:00:00:00:00:02`, EtherType `0x0806` (ARP) — the spec's untagged
scenario, truncated to the 14 header bytes. -/
def UNTAGGED_ARP_FRAME : List Nat :=
  [0x00, 0x00, 0x00, 0x00, 0x00, 0x01,
   0x00, 0x00, 0x00, 0x00, 0x00, 0x02,
   0x08, 0x06]

/-- A 20-byte single-tagged frame whose chunk bytes are pairwise distinct, to
separate the candidate EtherType read offsets: marker `0x8100` at 12, then
`0xAA 0xBB 0xCC 0xDD 0xEE 0xFF` at 14–19. -/
def OVERLAY_PROBE_FRAME : List Nat :=
  [0x00, 0x00, 0x00, 0x00, 0x00, 0x01,
   0x00, 0x00, 0x00, 0x00, 0x00, 0x02,
   0x81, 0x00,
   0xaa, 0xbb, 0xcc, 0xdd, 0xee, 0xff]

/-- 2048 bytes is the usual backing capacity of a DPDK mbuf. -/
def MBUF_CAPACITY : Nat := 2048

def mbufQ : Mbuf := ⟨VLAN_802_1Q_PACKET, MBUF_CAPACITY⟩

def mbufAD : Mbuf := ⟨VLAN_802_1AD_PACKET, MBUF_CAPACITY⟩

def mbufU : Mbuf := ⟨UNTAGGED_ARP_FRAME, MBUF_CAPACITY⟩

def mbufProbe : Mbuf := ⟨OVERLAY_PROBE_FRAME, MBUF_CAPACITY⟩

def ethQ : Ethernet := ⟨mbufQ, 0⟩

def ethAD : Ethernet := ⟨mbufAD, 0⟩

def ethU : Ethernet := ⟨mbufU, 0⟩

def ethProbe : Ethernet := ⟨mbufProbe, 0⟩

/-! ## Byte-level lemmas -/

theorem getD_set_self (l : List Nat) (i a : Nat) (h : i < l.length) :
    (l.set i a).getD i 0 = a := by
  simp [List.getD_eq_getElem?_getD, List.getElem?_set, h]

theorem getD_set_ne (l : List Nat) (i j a : Nat) (h : i ≠ j) :
    (l.set i a).getD j 0 = l.getD j 0 := by
  simp [List.getD_eq_getElem?_getD, List.getElem?_set_ne h]

theorem writeBytes_length (bs : List Nat) :
    ∀ (l : List Nat) (i : Nat), (writeBytes l i bs).length = l.length := by
  induction bs with
  | nil => intro l i; rfl
  | cons b bs ih => intro l i; rw [writeBytes, ih, List.length_set]

theorem getD_writeBytes_lt (bs : List Nat) :
    ∀ (l : List Nat) (i j : Nat), j < i →
      (writeBytes l i bs).getD j 0 = l.getD j 0 := by
  induction bs with
  | nil => intro l i j _; rfl
  | cons b bs ih =>
    intro l i j hj
    rw [writeBytes, ih _ _ _ (by omega), getD_set_ne _ _ _ _ (by omega)]

theorem getD_writeBytes_ge (bs : List Nat) :
    ∀ (l : List Nat) (i j : Nat), i + bs.length ≤ j →
      (writeBytes l i bs).getD j 0 = l.getD j 0 := by
  induction bs with
  | nil => intro l i j _; rfl
  | cons b bs ih =>
    intro l i j hj
    rw [List.length_cons] at hj
    rw [writeBytes, ih _ _ _ (by omega), getD_set_ne _ _ _ _ (by omega)]

theorem getD_writeBytes_inside (bs : List Nat) :
    ∀ (l : List Nat) (i k : Nat), k < bs.length → i + bs.length ≤ l.length →
      (writeBytes l i bs).getD (i + k) 0 = bs.getD k 0 := by
  induction bs with
  | nil => intro l i k hk _; exact absurd hk (by simp)
  | cons b bs ih =>
    intro l i k hk hl
    rw [List.length_cons] at hk hl
    match k with
    | 0 =>
      rw [writeBytes, getD_writeBytes_lt bs _ _ _ (by omega)]
      simpa using getD_set_self l i b (by omega)
    | k' + 1 =>
      rw [writeBytes, show i + (k' + 1) = (i + 1) + k' by omega,
        ih (l.set i b) (i + 1) k' (by omega) (by rw [List.length_set]; omega)]
      rfl

theorem readBytes_length (l : List Nat) (i n : Nat) :
    (readBytes l i n).length = n := by
  simp [readBytes]

theorem getD_readBytes (l : List Nat) (i n k : Nat) (hk : k < n) :
    (readBytes l i n).getD k 0 = l.getD (i + k) 0 := by
  rw [readBytes, List.getD_eq_getElem _ 0 (by simpa using hk)]
  simp

theorem readBytes_writeBytes_same (bs l : List Nat) (i : Nat)
    (h : i + bs.length ≤ l.length) :
    readBytes (writeBytes l i bs) i bs.length = bs := by
  apply List.ext_getElem (by simp [readBytes_length])
  intro n h1 h2
  rw [← List.getD_eq_getElem _ 0 h1, ← List.getD_eq_getElem _ 0 h2,
    getD_readBytes _ _ _ _ (by simpa [readBytes_length] using h1),
    getD_writeBytes_inside bs l i n (by simpa [readBytes_length] using h1) h]

theorem readBytes_writeBytes_outside (bs l : List Nat) (i j n : Nat)
    (h : j + n ≤ i ∨ i + bs.length ≤ j) :
    readBytes (writeBytes l i bs) j n = readBytes l j n := by
  apply List.ext_getElem (by simp [readBytes_length])
  intro k h1 h2
  rw [← List.getD_eq_getElem _ 0 h1, ← List.getD_eq_getElem _ 0 h2,
    getD_readBytes _ _ _ _ (by simpa [readBytes_length] using h1),
    getD_readBytes _ _ _ _ (by simpa [readBytes_length] using h2)]
  rcases h with h | h
  · exact getD_writeBytes_lt bs l i (j + k) (by simp [readBytes_length] at h1; omega)
  · exact getD_writeBytes_ge bs l i (j + k) (by omega)

/-! ## 16-bit read/write lemmas -/

theorem writeU16BE_data_length (m : Mbuf) (i v : Nat) :
    (m.writeU16BE i v).data.length = m.data.length := by
  simp [Mbuf.writeU16BE]

theorem readU16BE_writeU16BE_self (m : Mbuf) (i v : Nat) (hv : v < 65536)
    (h : i + 2 ≤ m.data.length) :
    (m.writeU16BE i v).readU16BE i = v := by
  rw [Mbuf.readU16BE, writeU16BE_data_length, if_pos h]
  show ((m.data.set i (v / 256 % 256)).set (i + 1) (v % 256)).getD i 0 * 256 +
      ((m.data.set i (v / 256 % 256)).set (i + 1) (v % 256)).getD (i + 1) 0 = v
  rw [getD_set_ne _ _ _ _ (by omega), getD_set_self _ _ _ (by omega),
    getD_set_self _ _ _ (by rw [List.length_set]; omega)]
  omega

theorem readU16BE_writeU16BE_ne (m : Mbuf) (i j v : Nat)
    (h : j + 2 ≤ i ∨ i + 2 ≤ j) :
    (m.writeU16BE i v).readU16BE j = m.readU16BE j := by
  rw [Mbuf.readU16BE, Mbuf.readU16BE, writeU16BE_data_length]
  split
  · show ((m.data.set i (v / 256 % 256)).set (i + 1) (v % 256)).getD j 0 * 256 +
        ((m.data.set i (v / 256 % 256)).set (i + 1) (v % 256)).getD (j + 1) 0 = _
    rw [getD_set_ne _ _ _ _ (by omega), getD_set_ne _ _ _ _ (by omega),
      getD_set_ne _ _ _ _ (by omega), getD_set_ne _ _ _ _ (by omega)]
    rfl
  · rfl

/-! ## Effects of `swap_addresses` -/

theorem swap_addresses_data (e : Ethernet) :
    e.swap_addresses.mbuf.data =
      writeBytes (writeBytes e.mbuf.data (e.offset + 6) e.dst) e.offset e.src := by
  rfl

theorem swap_addresses_offset (e : Ethernet) :
    e.swap_addresses.offset = e.offset := rfl

theorem swap_addresses_data_length (e : Ethernet) :
    e.swap_addresses.mbuf.data.length = e.mbuf.data.length := by
  rw [swap_addresses_data, writeBytes_length, writeBytes_length]

theorem getD_swap_addresses (e : Ethernet) (j : Nat)
    (h : j < e.offset ∨ e.offset + 12 ≤ j) :
    e.swap_addresses.mbuf.data.getD j 0 = e.mbuf.data.getD j 0 := by
  rw [swap_addresses_data]
  rcases h with h | h
  · rw [getD_writeBytes_lt _ _ _ _ h, getD_writeBytes_lt _ _ _ _ (by omega)]
  · rw [getD_writeBytes_ge _ _ _ _ (by rw [Ethernet.src, readBytes_length]; omega),
      getD_writeBytes_ge _ _ _ _ (by rw [Ethernet.dst, readBytes_length]; omega)]

theorem readU16BE_swap_addresses (e : Ethernet) (j : Nat)
    (h : e.offset + 12 ≤ j) :
    e.swap_addresses.mbuf.readU16BE j = e.mbuf.readU16BE j := by
  rw [Mbuf.readU16BE, Mbuf.readU16BE, swap_addresses_data_length]
  split
  · show e.swap_addresses.mbuf.data.getD j 0 * 256 +
        e.swap_addresses.mbuf.data.getD (j + 1) 0 = _
    rw [getD_swap_addresses _ _ (Or.inr h), getD_swap_addresses _ _ (Or.inr (by omega))]
    rfl
  · rfl

theorem vlan_marker_swap_addresses (e : Ethernet) :
    e.swap_addresses.vlan_marker = e.vlan_marker := by
  rw [Ethernet.vlan_marker, Ethernet.vlan_marker, swap_addresses_offset]
  exact readU16BE_swap_addresses e _ (by omega)

theorem header_len_swap_addresses (e : Ethernet) :
    e.swap_addresses.header_len = e.header_len := by
  rw [Ethernet.header_len, Ethernet.header_len, Ethernet.is_vlan_802_1q,
    Ethernet.is_vlan_802_1q, Ethernet.is_vlan_802_1ad, Ethernet.is_vlan_802_1ad,
    vlan_marker_swap_addresses]

theorem ether_type_swap_addresses (e : Ethernet) :
    e.swap_addresses.ether_type = e.ether_type := by
  rw [Ethernet.ether_type, Ethernet.ether_type, vlan_marker_swap_addresses,
    swap_addresses_offset,
    readU16BE_swap_addresses e _ (by omega),
    readU16BE_swap_addresses e _ (by omega),
    readU16BE_swap_addresses e _ (by omega)]

theorem swap_addresses_src (e : Ethernet) (h : e.offset + 12 ≤ e.mbuf.data.length) :
    e.swap_addresses.src = e.dst := by
  rw [Ethernet.src, swap_addresses_data, swap_addresses_offset,
    readBytes_writeBytes_outside _ _ _ _ _
      (Or.inr (by rw [Ethernet.src, readBytes_length])),
    show (6 : Nat) = e.dst.length by rw [Ethernet.dst, readBytes_length],
    readBytes_writeBytes_same _ _ _ (by rw [Ethernet.dst, readBytes_length]; omega)]

theorem swap_addresses_dst (e : Ethernet) (h : e.offset + 12 ≤ e.mbuf.data.length) :
    e.swap_addresses.dst = e.src := by
  rw [Ethernet.dst, swap_addresses_data, swap_addresses_offset,
    show (6 : Nat) = e.src.length by rw [Ethernet.src, readBytes_length],
    readBytes_writeBytes_same _ _ _
      (by rw [Ethernet.src, readBytes_length, writeBytes_length]; omega)]

theorem getD_replicate_zero (n k : Nat) :
    (List.replicate n (0 : Nat)).getD k 0 = 0 := by
  rw [List.getD_eq_getElem?_getD, List.getElem?_replicate]
  split <;> rfl

/-! ## Effects of `do_push` -/

theorem getD_replicate14_append (d : List Nat) (k : Nat) (hk : k < 14) :
    (List.replicate 14 0 ++ d).getD k 0 = 0 := by
  rw [List.getD_eq_getElem?_getD,
    List.getElem?_append_left (by rw [List.length_replicate]; omega),
    List.getElem?_replicate, if_pos hk]
  rfl

theorem push_write_id (d : List Nat) :
    writeBytes (List.replicate 14 0 ++ d) 0 (List.replicate 14 0) =
      List.replicate 14 0 ++ d := by
  apply List.ext_getElem (by rw [writeBytes_length])
  intro n h1 h2
  rw [← List.getD_eq_getElem _ 0 h1, ← List.getD_eq_getElem _ 0 h2]
  by_cases hn : n < 14
  · have h3 := getD_writeBytes_inside (List.replicate 14 0)
      (List.replicate 14 0 ++ d) 0 n (by rw [List.length_replicate]; omega)
      (by rw [List.length_replicate, List.length_append, List.length_replicate]; omega)
    rw [Nat.zero_add] at h3
    rw [h3, getD_replicate14_append _ _ hn, getD_replicate_zero]
  · exact getD_writeBytes_ge _ _ _ _ (by rw [List.length_replicate]; omega)

theorem do_push_ok (m : Mbuf) (h : m.data.length + 14 ≤ m.capacity) :
    Ethernet.do_push m = .ok ⟨⟨List.replicate 14 0 ++ m.data, m.capacity⟩, 0⟩ := by
  simp only [Ethernet.do_push, Mbuf.payload_offset, Mbuf.extend,
    EthernetHeader.size_of, bind, Except.bind]
  rw [if_pos (by omega)]
  simp only [Mbuf.write_data, EthernetHeader.default_bytes, List.take_zero,
    List.drop_zero, List.nil_append]
  rw [if_pos (by rw [List.length_replicate, List.length_append, List.length_replicate]; omega),
    push_write_id]
  rfl

theorem push_layer_vlan_marker (d : List Nat) (c : Nat) :
    Ethernet.vlan_marker ⟨⟨List.replicate 14 0 ++ d, c⟩, 0⟩ = 0 := by
  show Mbuf.readU16BE ⟨List.replicate 14 0 ++ d, c⟩ (0 + 12) = 0
  rw [Mbuf.readU16BE]
  have hcond : 0 + 12 + 2 ≤ (List.replicate 14 0 ++ d).length := by
    rw [List.length_append, List.length_replicate]; omega
  rw [if_pos hcond]
  simp only [Mbuf.getByte]
  rw [getD_replicate14_append d (0 + 12) (by omega),
    getD_replicate14_append d (0 + 12 + 1) (by omega)]

theorem push_layer_header_len (d : List Nat) (c : Nat) :
    Ethernet.header_len ⟨⟨List.replicate 14 0 ++ d, c⟩, 0⟩ = 14 := by
  rw [Ethernet.header_len, Ethernet.is_vlan_802_1q, Ethernet.is_vlan_802_1ad,
    push_layer_vlan_marker]
  rfl

theorem push_layer_addr (d : List Nat) (i : Nat) (h : i + 6 ≤ 14) :
    readBytes (List.replicate 14 0 ++ d) i 6 = List.replicate 6 0 := by
  apply List.ext_getElem (by rw [readBytes_length, List.length_replicate])
  intro n h1 h2
  rw [readBytes_length] at h1
  rw [← List.getD_eq_getElem _ 0 (by rw [readBytes_length]; omega),
    ← List.getD_eq_getElem _ 0 h2,
    getD_readBytes _ _ _ _ h1,
    getD_replicate14_append _ _ (by omega), getD_replicate_zero]

theorem push_layer_ether_type (d : List Nat) (c : Nat) :
    Ethernet.ether_type ⟨⟨List.replicate 14 0 ++ d, c⟩, 0⟩ = 0 := by
  rw [Ethernet.ether_type, push_layer_vlan_marker,
    if_neg (by rw [VLAN_802_1Q]; omega), if_neg (by rw [VLAN_802_1AD]; omega)]
  show Mbuf.readU16BE ⟨List.replicate 14 0 ++ d, c⟩ (0 + 12) = 0
  rw [Mbuf.readU16BE]
  have hcond : 0 + 12 + 2 ≤ (List.replicate 14 0 ++ d).length := by
    rw [List.length_append, List.length_replicate]; omega
  rw [if_pos hcond]
  simp only [Mbuf.getByte]
  rw [getD_replicate14_append d (0 + 12) (by omega),
    getD_replicate14_append d (0 + 12 + 1) (by omega)]

/-! ## `header_len`, parse and push inversion lemmas -/

theorem header_len_ge (e : Ethernet) : 14 ≤ e.header_len := by
  rw [Ethernet.header_len]
  split
  · rw [EthernetHeader.size_of, VlanTag.size_of]; omega
  split
  · rw [EthernetHeader.size_of, VlanTag.size_of]; omega
  · rw [EthernetHeader.size_of]

theorem header_len_of_marker_q (e : Ethernet) (h : e.vlan_marker = VLAN_802_1Q) :
    e.header_len = 18 := by
  rw [Ethernet.header_len, Ethernet.is_vlan_802_1q, h, if_pos (by rw [beq_self_eq_true])]
  rfl

theorem header_len_of_marker_ad (e : Ethernet) (h : e.vlan_marker = VLAN_802_1AD) :
    e.header_len = 22 := by
  rw [Ethernet.header_len, Ethernet.is_vlan_802_1q, Ethernet.is_vlan_802_1ad, h]
  rw [if_neg (by rw [VLAN_802_1AD, VLAN_802_1Q]; decide), if_pos (by rw [beq_self_eq_true])]
  rfl

theorem header_len_of_marker_untagged (e : Ethernet)
    (h1 : e.vlan_marker ≠ VLAN_802_1Q) (h2 : e.vlan_marker ≠ VLAN_802_1AD) :
    e.header_len = 14 := by
  rw [Ethernet.header_len, Ethernet.is_vlan_802_1q, Ethernet.is_vlan_802_1ad,
    if_neg (by simpa using h1), if_neg (by simpa using h2)]
  rfl

theorem vlan_marker_of_short (m : Mbuf) (h : m.data.length < 14) :
    Ethernet.vlan_marker ⟨m, 0⟩ = 0 := by
  show m.readU16BE (0 + 12) = 0
  rw [Mbuf.readU16BE, if_neg (by omega)]

theorem header_len_of_short (m : Mbuf) (h : m.data.length < 14) :
    Ethernet.header_len ⟨m, 0⟩ = 14 :=
  header_len_of_marker_untagged _
    (by rw [vlan_marker_of_short m h, VLAN_802_1Q]; omega)
    (by rw [vlan_marker_of_short m h, VLAN_802_1AD]; omega)

theorem do_parse_ok_inv (m : Mbuf) (e : Ethernet)
    (h : Ethernet.do_parse m = .ok e) :
    e = ⟨m, 0⟩ ∧ Ethernet.header_len ⟨m, 0⟩ ≤ m.data.length := by
  revert h
  simp only [Ethernet.do_parse, Mbuf.payload_offset, Mbuf.data_len]
  split
  · intro h; exact absurd h (by simp)
  split
  · intro h; exact absurd h (by simp)
  · intro h
    refine ⟨(Except.ok.inj h).symm, by omega⟩

theorem do_push_fail (m : Mbuf) (h : ¬ m.data.length + 14 ≤ m.capacity) :
    Ethernet.do_push m = .error .BufferCapacityExceeded := by
  simp only [Ethernet.do_push, Mbuf.payload_offset, Mbuf.extend,
    EthernetHeader.size_of, bind, Except.bind]
  rw [if_neg (by omega)]

theorem do_parse_eq (m : Mbuf) :
    Ethernet.do_parse m =
      if m.data.length < 14 then
        .error (.OutOfBuffer 14 m.data.length)
      else if m.data.length < Ethernet.header_len ⟨m, 0⟩ then
        .error (.OutOfBuffer (Ethernet.header_len ⟨m, 0⟩) m.data.length)
      else .ok ⟨m, 0⟩ := rfl

/-! ## The claims -/

/-- C1: for every successfully parsed Ethernet layer, `header_len()` is
re-derived from the 2-byte tag marker at the chunk's base offset: 14 when the
marker is neither `0x8100` nor `0x88A8`; 18 when it is `0x8100` (and then
`is_vlan_802_1q()` holds); 22 when it is `0x88A8` (and then
`is_vlan_802_1ad()` holds). -/
theorem C1_header_len_from_marker (m : Mbuf) (e : Ethernet)
    (_hp : Ethernet.do_parse m = .ok e) :
    (e.vlan_marker ≠ VLAN_802_1Q → e.vlan_marker ≠ VLAN_802_1AD → e.header_len = 14) ∧
    (e.vlan_marker = VLAN_802_1Q → e.header_len = 18 ∧ e.is_vlan_802_1q = true) ∧
    (e.vlan_marker = VLAN_802_1AD → e.header_len = 22 ∧ e.is_vlan_802_1ad = true) :=
  ⟨fun h1 h2 => header_len_of_marker_untagged e h1 h2,
   fun h => ⟨header_len_of_marker_q e h,
     by rw [Ethernet.is_vlan_802_1q, h, beq_self_eq_true]⟩,
   fun h => ⟨header_len_of_marker_ad e h,
     by rw [Ethernet.is_vlan_802_1ad, h, beq_self_eq_true]⟩⟩

theorem C1_header_len_witness :
    (Ethernet.header_len ethQ = 18 ∧ Ethernet.is_vlan_802_1q ethQ = true) ∧
    (Ethernet.header_len ethAD = 22 ∧ Ethernet.is_vlan_802_1ad ethAD = true) ∧
    Ethernet.header_len ethU = 14 :=
  ⟨(C1_header_len_from_marker mbufQ ethQ rfl).2.1 rfl,
   (C1_header_len_from_marker mbufAD ethAD rfl).2.2 rfl,
   (C1_header_len_from_marker mbufU ethU rfl).1 (by decide) (by decide)⟩

/-- C2: parsing a buffer whose occupied length is below the instance length
derived from the tag marker fails with `OutOfBuffer(required = instance
length, available = occupied length)` and never yields a layer; when the
occupied length reaches the instance length the check passes and the layer is
returned. -/
theorem C2_parse_out_of_buffer (m : Mbuf) :
    (m.data_len < Ethernet.header_len ⟨m, 0⟩ →
      Ethernet.do_parse m =
        .error (.OutOfBuffer (Ethernet.header_len ⟨m, 0⟩) m.data_len) ∧
      ∀ e : Ethernet, Ethernet.do_parse m ≠ .ok e) ∧
    (Ethernet.header_len ⟨m, 0⟩ ≤ m.data_len →
      Ethernet.do_parse m = .ok ⟨m, 0⟩) := by
  rw [Mbuf.data_len, do_parse_eq]
  have hge := header_len_ge (Ethernet.mk m 0)
  constructor
  · intro h
    by_cases h14 : m.data.length < 14
    · rw [if_pos h14, header_len_of_short m h14]
      exact ⟨rfl, by simp⟩
    · rw [if_neg h14, if_pos h]
      exact ⟨rfl, by simp⟩
  · intro h
    rw [if_neg (by omega), if_neg (by omega)]

theorem C2_parse_witness :
    Ethernet.do_parse ⟨List.take 16 VLAN_802_1Q_PACKET, MBUF_CAPACITY⟩ =
      .error (.OutOfBuffer 18 16) ∧
    Ethernet.do_parse mbufU = .ok ⟨mbufU, 0⟩ :=
  ⟨((C2_parse_out_of_buffer ⟨List.take 16 VLAN_802_1Q_PACKET, MBUF_CAPACITY⟩).1
      (by decide)).1,
   (C2_parse_out_of_buffer mbufU).2 (by decide)⟩

/-- C3, counterexample to the claimed read offsets: on a parsed single-tagged
frame the code reads the EtherType 4 bytes past the chunk base (absolute
offset 16), not 6 bytes past it (absolute 18) as the claim states, and not 6
bytes past the header base (absolute 6) either. -/
theorem C3_claimed_offsets_counterexample :
    Ethernet.do_parse mbufProbe = .ok ethProbe ∧
    Ethernet.ether_type ethProbe = 0xCCDD ∧
    Ethernet.ether_type_claimed ethProbe = 0xEEFF ∧
    Mbuf.readU16BE mbufProbe (0 + 6) = 0x0000 ∧
    (0xCCDD : Nat) ≠ 0xEEFF ∧ (0xCCDD : Nat) ≠ 0x0000 :=
  ⟨rfl, rfl, rfl, rfl, by decide, by decide⟩

/-- C3, amended: `ether_type()` re-reads the marker at the chunk's base
offset (offset + 12) on each call, then reads the big-endian EtherType 4
bytes past the chunk base (offset + 16) when the marker is `0x8100`, 8 bytes
past it (offset + 20) when the marker is `0x88A8`, and at the chunk base
itself otherwise. -/
theorem C3_ether_type_overlay_offsets (m : Mbuf) (e : Ethernet)
    (_hp : Ethernet.do_parse m = .ok e) :
    e.ether_type =
      if e.mbuf.readU16BE (e.offset + 12) = VLAN_802_1Q then
        e.mbuf.readU16BE (e.offset + 16)
      else if e.mbuf.readU16BE (e.offset + 12) = VLAN_802_1AD then
        e.mbuf.readU16BE (e.offset + 20)
      else e.mbuf.readU16BE (e.offset + 12) := by
  rw [Ethernet.ether_type, Ethernet.vlan_marker,
    show e.offset + 12 + 4 = e.offset + 16 from by omega,
    show e.offset + 12 + 8 = e.offset + 20 from by omega]

theorem C3_ether_type_offsets_witness :
    Ethernet.ether_type ethQ =
      if Mbuf.readU16BE (Ethernet.mbuf ethQ) (Ethernet.offset ethQ + 12) = VLAN_802_1Q then
        Mbuf.readU16BE (Ethernet.mbuf ethQ) (Ethernet.offset ethQ + 16)
      else if Mbuf.readU16BE (Ethernet.mbuf ethQ) (Ethernet.offset ethQ + 12) = VLAN_802_1AD then
        Mbuf.readU16BE (Ethernet.mbuf ethQ) (Ethernet.offset ethQ + 20)
      else Mbuf.readU16BE (Ethernet.mbuf ethQ) (Ethernet.offset ethQ + 12) :=
  C3_ether_type_overlay_offsets mbufQ ethQ rfl

/-- C4: after a successful parse or a successful push, the layer satisfies
`offset + header_len() ≤ buffer.data_len()`. -/
theorem C4_offset_invariant (m : Mbuf) (e : Ethernet)
    (h : Ethernet.do_parse m = .ok e ∨ Ethernet.do_push m = .ok e) :
    e.offset + e.header_len ≤ e.mbuf.data_len := by
  rcases h with h | h
  · obtain ⟨rfl, hlen⟩ := do_parse_ok_inv m e h
    show 0 + Ethernet.header_len ⟨m, 0⟩ ≤ m.data.length
    omega
  · by_cases hc : m.data.length + 14 ≤ m.capacity
    · rw [do_push_ok m hc] at h
      obtain rfl := (Except.ok.inj h).symm
      show 0 + Ethernet.header_len ⟨⟨List.replicate 14 0 ++ m.data, m.capacity⟩, 0⟩ ≤
        (List.replicate 14 0 ++ m.data).length
      rw [push_layer_header_len, List.length_append, List.length_replicate]
      omega
    · rw [do_push_fail m hc] at h
      exact absurd h (by simp)

theorem C4_offset_invariant_witness :
    Ethernet.offset ethU + Ethernet.header_len ethU ≤ Mbuf.data_len (Ethernet.mbuf ethU) :=
  C4_offset_invariant mbufU ethU (Or.inl rfl)

/-- C5: the source's `VlanTag` accessors mask and shift the raw `tci` field
without the `u16::from_be` conversion used everywhere else in the file, so on
a little-endian host they operate on the byte-swapped value. Evaluated at the
802.1Q fixture's wire TCI `0x00 0x7b` (priority 0, not drop-eligible,
VLAN id 123): the code returns priority 3, drop-eligible, id 2816. -/
theorem C5_vlan_tag_accessors_unconverted :
    (VlanTag.ofWire true 0x81 0x00 0x00 0x7b).identifier = 2816 ∧
    VlanTag.identifier_claimed 0x007b = 123 ∧
    (VlanTag.ofWire true 0x81 0x00 0x00 0x7b).priority = 3 ∧
    VlanTag.priority_claimed 0x007b = 0 ∧
    (VlanTag.ofWire true 0x81 0x00 0x00 0x7b).drop_eligible = true ∧
    VlanTag.drop_eligible_claimed 0x007b = false ∧
    (VlanTag.ofWire false 0x81 0x00 0x00 0x7b).identifier = 123 := by
  decide

/-- C6: with enough capacity, push inserts exactly the 14-byte nominal header
at the target offset, zero-initializes it, and anchors the layer there with
`header_len() = 14` and all-zero `dst`, `src` and EtherType. -/
theorem C6_push_zero_initialized (m : Mbuf) (h : m.data_len + 14 ≤ m.capacity) :
    ∃ e : Ethernet,
      Ethernet.do_push m = .ok e ∧
      e.offset = 0 ∧
      e.mbuf.data = List.replicate 14 0 ++ m.data ∧
      e.mbuf.data_len = m.data_len + 14 ∧
      e.header_len = 14 ∧
      e.dst = List.replicate 6 0 ∧
      e.src = List.replicate 6 0 ∧
      e.ether_type = 0 := by
  rw [Mbuf.data_len] at h
  refine ⟨⟨⟨List.replicate 14 0 ++ m.data, m.capacity⟩, 0⟩, do_push_ok m h, rfl, rfl,
    ?_, push_layer_header_len _ _, ?_, ?_, push_layer_ether_type _ _⟩
  · show (List.replicate 14 0 ++ m.data).length = m.data.length + 14
    rw [List.length_append, List.length_replicate]; omega
  · show readBytes (List.replicate 14 0 ++ m.data) 0 6 = List.replicate 6 0
    exact push_layer_addr m.data 0 (by omega)
  · show readBytes (List.replicate 14 0 ++ m.data) (0 + 6) 6 = List.replicate 6 0
    exact push_layer_addr m.data (0 + 6) (by omega)

theorem C6_push_witness :
    ∃ e : Ethernet,
      Ethernet.do_push ⟨[], MBUF_CAPACITY⟩ = .ok e ∧
      e.offset = 0 ∧
      e.mbuf.data = List.replicate 14 0 ++ ([] : List Nat) ∧
      e.mbuf.data_len = Mbuf.data_len ⟨[], MBUF_CAPACITY⟩ + 14 ∧
      e.header_len = 14 ∧
      e.dst = List.replicate 6 0 ∧
      e.src = List.replicate 6 0 ∧
      e.ether_type = 0 :=
  C6_push_zero_initialized ⟨[], MBUF_CAPACITY⟩ (by decide)

/-- C7: pushing an Ethernet layer onto an empty buffer and immediately
removing it returns a buffer with the original occupied length (remove
shrinks by exactly `header_len()` at the layer's offset). -/
theorem C7_push_remove_roundtrip (m : Mbuf) (hempty : m.data = [])
    (hcap : 14 ≤ m.capacity) :
    ∃ (e : Ethernet) (m2 : Mbuf),
      Ethernet.do_push m = .ok e ∧ e.remove = .ok m2 ∧ m2.data_len = m.data_len := by
  rcases m with ⟨d, c⟩
  obtain rfl : d = [] := hempty
  refine ⟨⟨⟨List.replicate 14 0 ++ [], c⟩, 0⟩, ⟨[], c⟩,
    do_push_ok _ (by simpa using hcap), ?_, rfl⟩
  rw [Ethernet.remove]
  show Mbuf.shrink ⟨List.replicate 14 0 ++ [], c⟩ 0
    (Ethernet.header_len ⟨⟨List.replicate 14 0 ++ [], c⟩, 0⟩) = .ok ⟨[], c⟩
  rw [push_layer_header_len]
  rfl

theorem C7_push_remove_witness :
    ∃ (e : Ethernet) (m2 : Mbuf),
      Ethernet.do_push ⟨[], MBUF_CAPACITY⟩ = .ok e ∧ e.remove = .ok m2 ∧
      m2.data_len = Mbuf.data_len ⟨[], MBUF_CAPACITY⟩ :=
  C7_push_remove_roundtrip ⟨[], MBUF_CAPACITY⟩ rfl (by decide)

/-- C8: on every parsed layer, `swap_addresses` exchanges the source and
destination addresses, and applying it twice restores both. -/
theorem C8_swap_addresses_involution (m : Mbuf) (e : Ethernet)
    (hp : Ethernet.do_parse m = .ok e) :
    e.swap_addresses.src = e.dst ∧ e.swap_addresses.dst = e.src ∧
    e.swap_addresses.swap_addresses.src = e.src ∧
    e.swap_addresses.swap_addresses.dst = e.dst := by
  obtain ⟨rfl, hlen⟩ := do_parse_ok_inv m e hp
  have hge := header_len_ge (Ethernet.mk m 0)
  have h1 : (Ethernet.mk m 0).offset + 12 ≤ (Ethernet.mk m 0).mbuf.data.length := by
    show 0 + 12 ≤ m.data.length; omega
  have h2 : (Ethernet.mk m 0).swap_addresses.offset + 12 ≤
      (Ethernet.mk m 0).swap_addresses.mbuf.data.length := by
    rw [swap_addresses_offset, swap_addresses_data_length]; exact h1
  exact ⟨swap_addresses_src _ h1, swap_addresses_dst _ h1,
    by rw [swap_addresses_src _ h2, swap_addresses_dst _ h1],
    by rw [swap_addresses_dst _ h2, swap_addresses_src _ h1]⟩

theorem C8_swap_addresses_witness :
    (Ethernet.swap_addresses ethU).src = Ethernet.dst ethU ∧
    (Ethernet.swap_addresses ethU).dst = Ethernet.src ethU ∧
    (Ethernet.swap_addresses (Ethernet.swap_addresses ethU)).src = Ethernet.src ethU ∧
    (Ethernet.swap_addresses (Ethernet.swap_addresses ethU)).dst = Ethernet.dst ethU :=
  C8_swap_addresses_involution mbufU ethU rfl

theorem set_ether_type_q (m : Mbuf) (v : Nat) (hv : v < 65536)
    (hq : Ethernet.vlan_marker ⟨m, 0⟩ = VLAN_802_1Q) (h18 : 18 ≤ m.data.length) :
    Ethernet.ether_type (Ethernet.set_ether_type ⟨m, 0⟩ v) = v := by
  rw [Ethernet.set_ether_type, if_pos hq]
  show Ethernet.ether_type ⟨m.writeU16BE (0 + 12 + 4) v, 0⟩ = v
  have hm : Ethernet.vlan_marker ⟨m.writeU16BE (0 + 12 + 4) v, 0⟩ = VLAN_802_1Q := by
    show (m.writeU16BE (0 + 12 + 4) v).readU16BE (0 + 12) = VLAN_802_1Q
    rw [readU16BE_writeU16BE_ne m _ _ _ (by omega)]
    exact hq
  rw [Ethernet.ether_type, hm, if_pos rfl]
  show (m.writeU16BE (0 + 12 + 4) v).readU16BE (0 + 12 + 4) = v
  exact readU16BE_writeU16BE_self m _ v hv (by omega)

theorem set_ether_type_ad (m : Mbuf) (v : Nat) (hv : v < 65536)
    (had : Ethernet.vlan_marker ⟨m, 0⟩ = VLAN_802_1AD) (h22 : 22 ≤ m.data.length) :
    Ethernet.ether_type (Ethernet.set_ether_type ⟨m, 0⟩ v) = v := by
  have hne : Ethernet.vlan_marker ⟨m, 0⟩ ≠ VLAN_802_1Q := by
    rw [had, VLAN_802_1AD, VLAN_802_1Q]; omega
  rw [Ethernet.set_ether_type, if_neg hne, if_pos had]
  show Ethernet.ether_type ⟨m.writeU16BE (0 + 12 + 8) v, 0⟩ = v
  have hm : Ethernet.vlan_marker ⟨m.writeU16BE (0 + 12 + 8) v, 0⟩ = VLAN_802_1AD := by
    show (m.writeU16BE (0 + 12 + 8) v).readU16BE (0 + 12) = VLAN_802_1AD
    rw [readU16BE_writeU16BE_ne m _ _ _ (by omega)]
    exact had
  rw [Ethernet.ether_type, hm,
    if_neg (by rw [VLAN_802_1AD, VLAN_802_1Q]; omega), if_pos rfl]
  show (m.writeU16BE (0 + 12 + 8) v).readU16BE (0 + 12 + 8) = v
  exact readU16BE_writeU16BE_self m _ v hv (by omega)

theorem set_ether_type_untagged (m : Mbuf) (v : Nat) (hv : v < 65536)
    (h1 : Ethernet.vlan_marker ⟨m, 0⟩ ≠ VLAN_802_1Q)
    (h2 : Ethernet.vlan_marker ⟨m, 0⟩ ≠ VLAN_802_1AD)
    (hv1 : v ≠ VLAN_802_1Q) (hv2 : v ≠ VLAN_802_1AD)
    (h14 : 14 ≤ m.data.length) :
    Ethernet.ether_type (Ethernet.set_ether_type ⟨m, 0⟩ v) = v := by
  rw [Ethernet.set_ether_type, if_neg h1, if_neg h2]
  show Ethernet.ether_type ⟨m.writeU16BE (0 + 12) v, 0⟩ = v
  have hm : Ethernet.vlan_marker ⟨m.writeU16BE (0 + 12) v, 0⟩ = v := by
    show (m.writeU16BE (0 + 12) v).readU16BE (0 + 12) = v
    exact readU16BE_writeU16BE_self m _ v hv (by omega)
  rw [Ethernet.ether_type, hm, if_neg hv1, if_neg hv2]
  show (m.writeU16BE (0 + 12) v).readU16BE (0 + 12) = v
  exact readU16BE_writeU16BE_self m _ v hv (by omega)

/-- C9: on a parsed layer, `set_ether_type(v)` followed by `ether_type()`
returns `v` whenever the write cannot change which overlay is selected —
always on tagged frames (the write lands on the inner EtherType sub-field),
and on untagged frames whenever `v` is neither tag marker (the write lands on
the marker position itself). `v` is a u16 value. -/
theorem C9_set_ether_type_roundtrip (m : Mbuf) (e : Ethernet)
    (hp : Ethernet.do_parse m = .ok e) (v : Nat) (hv : v < 65536)
    (hsel : e.vlan_marker = VLAN_802_1Q ∨ e.vlan_marker = VLAN_802_1AD ∨
      (v ≠ VLAN_802_1Q ∧ v ≠ VLAN_802_1AD)) :
    (e.set_ether_type v).ether_type = v := by
  obtain ⟨rfl, hlen⟩ := do_parse_ok_inv m e hp
  rcases hsel with hq | had | ⟨hv1, hv2⟩
  · exact set_ether_type_q m v hv hq
      (by rw [header_len_of_marker_q _ hq] at hlen; exact hlen)
  · exact set_ether_type_ad m v hv had
      (by rw [header_len_of_marker_ad _ had] at hlen; exact hlen)
  · by_cases hq : Ethernet.vlan_marker ⟨m, 0⟩ = VLAN_802_1Q
    · exact set_ether_type_q m v hv hq
        (by rw [header_len_of_marker_q _ hq] at hlen; exact hlen)
    by_cases had : Ethernet.vlan_marker ⟨m, 0⟩ = VLAN_802_1AD
    · exact set_ether_type_ad m v hv had
        (by rw [header_len_of_marker_ad _ had] at hlen; exact hlen)
    · exact set_ether_type_untagged m v hv hq had hv1 hv2
        (by rw [header_len_of_marker_untagged _ hq had] at hlen; exact hlen)

theorem C9_set_ether_type_witness :
    Ethernet.ether_type (Ethernet.set_ether_type ethU 0x0800) = 0x0800 ∧
    Ethernet.ether_type (Ethernet.set_ether_type ethQ 0x86DD) = 0x86DD :=
  ⟨C9_set_ether_type_roundtrip mbufU ethU rfl 0x0800 (by decide)
      (Or.inr (Or.inr ⟨by decide, by decide⟩)),
   C9_set_ether_type_roundtrip mbufQ ethQ rfl 0x86DD (by decide) (Or.inl rfl)⟩

/-- C10: `swap_addresses` touches only the two 6-byte address fields: the
layer's offset, the instance length, the tag marker, the EtherType, the
buffer's occupied length, and every byte outside the 12 address bytes
(in particular the whole chunk region) are unchanged. -/
theorem C10_swap_addresses_frame (e : Ethernet) :
    e.swap_addresses.offset = e.offset ∧
    e.swap_addresses.header_len = e.header_len ∧
    e.swap_addresses.vlan_marker = e.vlan_marker ∧
    e.swap_addresses.ether_type = e.ether_type ∧
    e.swap_addresses.mbuf.data_len = e.mbuf.data_len ∧
    (∀ j : Nat, j < e.offset ∨ e.offset + 12 ≤ j →
      e.swap_addresses.mbuf.data.getD j 0 = e.mbuf.data.getD j 0) :=
  ⟨rfl, header_len_swap_addresses e, vlan_marker_swap_addresses e,
   ether_type_swap_addresses e,
   by rw [Mbuf.data_len, Mbuf.data_len, swap_addresses_data_length],
   fun j h => getD_swap_addresses e j h⟩

theorem C10_swap_addresses_witness :
    (Ethernet.swap_addresses ethQ).header_len = Ethernet.header_len ethQ ∧
    (Ethernet.swap_addresses ethQ).ether_type = Ethernet.ether_type ethQ ∧
    (Ethernet.swap_addresses ethQ).mbuf.data.getD 13 0 =
      (Ethernet.mbuf ethQ).data.getD 13 0 :=
  ⟨(C10_swap_addresses_frame ethQ).2.1,
   (C10_swap_addresses_frame ethQ).2.2.2.1,
   (C10_swap_addresses_frame ethQ).2.2.2.2.2 13 (Or.inr (by decide))⟩

end Capsule
